import Mathlib

/-!
Shallow embedding of the sssea audit pipeline (Python) and proofs about it.

Conventions used throughout this development:
* Python `str` values are Lean `String`s; byte strings of ASCII text are
  `List Char` of their characters.
* Python numbers (`int`, `float`) are embedded as `Int`/`Rat`; `float`
  arithmetic is modelled exactly over `Rat` (binary rounding of IEEE doubles
  is not modelled; every concrete computation appearing in a theorem below is
  exact in double precision as well).
* Fallible Python code (code that can raise) returns `Except`/`Option`.
* Mutable state (the forked EVM node, the reflection agent's retry counter)
  is threaded explicitly.
-/

namespace SSSEA

/-! ### Python primitives shared by several components -/

/-- Lexicographic (code-point) comparison of char lists, the order Python uses
for `str` comparison. -/
def charListLt : List Char → List Char → Bool
  | [], [] => false
  | [], _ :: _ => true
  | _ :: _, [] => false
  | a :: as, b :: bs =>
    if a.toNat < b.toNat then true
    else if b.toNat < a.toNat then false
    else charListLt as bs

/-- Python string comparison a < b (lexicographic over code points). -/
def pyStrLt (a b : String) : Bool :=
  charListLt a.data b.data

/-- Python builtin max on two strings: returns b only when a < b. -/
def pyStrMax (a b : String) : String :=
  if pyStrLt a b then b else a

/-- Model of Python int(s) for a decimal string: an optional sign followed by
at least one digit.  (Python additionally strips whitespace and allows
underscores between digits; those lenient forms play no role in any claim.)
Returns none where Python raises ValueError. -/
def pyParseInt (s : String) : Option Int :=
  let core (ds : List Char) : Option Nat :=
    if ds.isEmpty then none
    else if ds.all (fun c => c.isDigit) then
      some (ds.foldl (fun acc c => acc * 10 + (c.toNat - 48)) 0)
    else none
  match s.data with
  | '-' :: rest => (core rest).map (fun n => -(n : Int))
  | '+' :: rest => (core rest).map (fun n => (n : Int))
  | ds => (core ds).map (fun n => (n : Int))

/-- Digits of n in base 16, most significant first, lowercase, as produced by
Python hex(n) after the 0x prefix (hex(0) = 0x0). -/
def hexDigits (n : Nat) : List Char :=
  Nat.toDigits 16 n

/-- Python hex() on an arbitrary int: 0x-prefixed lowercase digits, with a
leading minus sign for negative input. -/
def pyHex (n : Int) : String :=
  if n < 0 then "-0x" ++ String.mk (hexDigits n.natAbs)
  else "0x" ++ String.mk (hexDigits n.toNat)

/-- Truncation toward zero of a rational, the behaviour of Python int() on a
float. -/
def truncRat (q : ℚ) : Int :=
  if 0 ≤ q then ⌊q⌋ else -⌊-q⌋

/-- Python str.startswith, computed on the character lists. -/
def pyStartsWith (s pre : String) : Bool :=
  pre.data.isPrefixOf s.data

/-- Is the character an ASCII hex digit. -/
def isHexDigitChar (c : Char) : Bool :=
  c.isDigit || ('a' ≤ c && c ≤ 'f') || ('A' ≤ c && c ≤ 'F')

/-- The 0x-prefixed zero address, spelled as in the source (0x followed by 40
zeros). -/
def zeroAddress : String :=
  "0x" ++ String.mk (List.replicate 40 '0')

/-- Validity test performed by Web3.to_checksum_address: the argument must be
a 20-byte hex string (0x followed by 40 hex digits).  Anything else raises. -/
def isValidAddress (a : String) : Bool :=
  pyStartsWith a "0x" && a.length == 42 && (a.data.drop 2).all isHexDigitChar

/-! ### ForensicsToolkit (src/toolkits/forensics_toolkit.py) -/

namespace Forensics

/-- One call-trace entry as consumed by the forensics helpers.  The source
reads dicts; to_address embeds trace.get("to_address", trace.get("to", ""))
and depth embeds trace.get("depth", 0). -/
structure TraceEntry where
  to_address : String
  depth : Nat
deriving DecidableEq, Repr

/-- call_map insertion: Python dict semantics, i.e. first-seen key order is
preserved and depths are appended in trace order. -/
def insertDepth : List (String × List Nat) → String → Nat → List (String × List Nat)
  | [], addr, d => [(addr, [d])]
  | (a, ds) :: rest, addr, d =>
    if a == addr then (a, ds ++ [d]) :: rest
    else (a, ds) :: insertDepth rest addr d

/-- The call_map built by ForensicsToolkit._detect_reentrancy: address to the
list of depths at which it is called, in first-seen order. -/
def buildCallMap (traces : List TraceEntry) : List (String × List Nat) :=
  traces.foldl (fun m t => insertDepth m t.to_address t.depth) []

/-- ForensicsToolkit._detect_reentrancy.  Returns the first address whose
depth list has more than 3 distinct entries (the source condition is
len(set(depths)) > 3), together with its depth list; the reported address is
truncated to its first 10 characters as in the source. -/
def detect_reentrancy (traces : List TraceEntry) : Option (String × List Nat) :=
  match traces with
  | [] => none
  | _ =>
    ((buildCallMap traces).find? (fun kv => 3 < kv.2.eraseDups.length)).map
      (fun kv => (String.mk (kv.1.data.take 10), kv.2))

/-- ForensicsToolkit._check_reentrancy_attack: wraps _detect_reentrancy with
confidence 0.7 when it fires. -/
def check_reentrancy_attack (traces : List TraceEntry) : Option (ℚ × (String × List Nat)) :=
  (detect_reentrancy traces).map (fun r => (mkRat 7 10, r))

/-- One detected attack as summed by _calculate_risk_score: its severity tag
and confidence. -/
structure AttackItem where
  severity : String
  confidence : ℚ
deriving DecidableEq, Repr

/-- Per-attack contribution inside _calculate_risk_score's loop. -/
def attackContribution (a : AttackItem) : ℚ :=
  if a.severity == "critical" then mkRat 4 10 * a.confidence
  else if a.severity == "high" then mkRat 3 10 * a.confidence
  else if a.severity == "warning" then mkRat 15 100 * a.confidence
  else mkRat 1 10 * a.confidence

/-- ForensicsToolkit._calculate_risk_score: early 0.0 on the empty list,
otherwise the accumulated contributions capped at 1.0. -/
def calculate_risk_score (attacks : List AttackItem) : ℚ :=
  match attacks with
  | [] => 0
  | _ => min (attacks.foldl (fun acc a => acc + attackContribution a) 0) 1

/-- ForensicsToolkit._get_risk_level. -/
def get_risk_level (score : ℚ) : String :=
  if score ≥ mkRat 7 10 then "CRITICAL"
  else if score ≥ mkRat 4 10 then "WARNING"
  else "SAFE"

/-- The claim's severity-weight table (critical 0.4, high 0.3, warning 0.15,
low 0.1), stated from the specification for comparison with the source. -/
def claimSeverityWeight (sev : String) : ℚ :=
  if sev = "critical" then mkRat 4 10
  else if sev = "high" then mkRat 3 10
  else if sev = "warning" then mkRat 15 100
  else if sev = "low" then mkRat 1 10
  else 0

end Forensics

/-! ### PerceptionAgent (src/agents/perception.py) -/

namespace Perception

/-- The dynamic value a transaction value field may carry before
normalization. -/
inductive PyValue where
  | pint (n : Int)
  | pfloat (q : ℚ)
  | pstr (s : String)
deriving DecidableEq, Repr

/-- PerceptionAgent._normalize_value.  int input becomes hex(n); float input
is interpreted as whole units and scaled by 1e18 before hex(int(...)); a
string is returned unchanged when 0x-prefixed, otherwise parsed as a decimal
int and hex-encoded, falling back to "0" when parsing raises. -/
def normalize_value : PyValue → String
  | .pint n => pyHex n
  | .pfloat q => pyHex (truncRat (q * (10 ^ 18 : ℚ)))
  | .pstr s =>
    if pyStartsWith s "0x" then s
    else
      match pyParseInt s with
      | some n => pyHex n
      | none => "0"

/-- The complexity component of PerceptionAgent._classify_task: calldata
length thresholds, then for swap/approve intents the source computes
max(complexity, "medium") with Python's lexicographic string max. -/
def classify_complexity (intent_type : String) (calldata : String) : String :=
  let c0 :=
    if calldata.length > 1000 then "complex"
    else if calldata.length > 200 then "medium"
    else "simple"
  if intent_type == "swap" || intent_type == "approve" then pyStrMax c0 "medium"
  else c0

end Perception

/-! ### AggregatorAgent (src/agents/aggregator.py) -/

namespace Aggregator

/-- One entry of the reflection stage's anomalies list as read by the
aggregator (severity tag and message). -/
structure AnomalyEntry where
  severity : String
  message : String
deriving DecidableEq, Repr

/-- The slice of reflection's quality_assessment that
_generate_security_assessment reads: the has_security_concerns flag and the
risk_score it stored (absent when the key was never set; the source then
defaults it to 0.5). -/
structure QualityView where
  has_security_concerns : Bool
  risk_score : Option ℚ
deriving DecidableEq, Repr

/-- The reflection result dict as read by the aggregator.  none models a
missing or empty (falsy) reflection entry. -/
structure ReflectionView where
  quality : QualityView
  anomalies : List AnomalyEntry
deriving DecidableEq, Repr

/-- The security assessment record mutated by
_generate_security_assessment. -/
structure Assessment where
  risk_level : String
  confidence : ℚ
  risk_score : ℚ
  findings : List String
deriving DecidableEq, Repr

/-- AggregatorAgent._generate_security_assessment.  attackRiskScore embeds
simulation_result["data"]["risk_score"] (none when absent; the source guard
is Python truthiness, so a present 0 score is also skipped, hence the 0 test
below). -/
def generate_security_assessment (reflection : Option ReflectionView)
    (attackRiskScore : Option ℚ) : Assessment :=
  let a0 : Assessment :=
    { risk_level := "SAFE", confidence := mkRat 7 10, risk_score := 0, findings := [] }
  let a1 :=
    match reflection with
    | none => a0
    | some r =>
      if r.quality.has_security_concerns then
        { a0 with risk_level := "WARNING", risk_score := r.quality.risk_score.getD (mkRat 5 10) }
      else a0
  let a2 :=
    match attackRiskScore with
    | none => a1
    | some ar =>
      if ar ≠ 0 then
        let upgraded := if ar > mkRat 7 10 then "CRITICAL" else a1.risk_level
        { a1 with risk_score := max a1.risk_score ar, risk_level := upgraded }
      else a1
  match reflection with
  | none => a2
  | some r =>
    let crit := r.anomalies.filter (fun an => an.severity == "critical")
    if crit.isEmpty then a2
    else
      { a2 with
        risk_level := "CRITICAL",
        risk_score := mkRat 9 10,
        findings := a2.findings ++ crit.map (fun an => an.message) }

/-- The risk level the code actually produces, written as a closed-form
decision chain (used as the amended form of claim C4). -/
def aggregatedLevel (reflection : Option ReflectionView) (attackRiskScore : Option ℚ) : String :=
  let hasCrit : Bool :=
    match reflection with
    | none => false
    | some r => !(r.anomalies.filter (fun an => an.severity == "critical")).isEmpty
  let attackCritical : Bool :=
    match attackRiskScore with
    | none => false
    | some ar => decide (ar ≠ 0) && decide (ar > mkRat 7 10)
  let concerns : Bool :=
    match reflection with
    | none => false
    | some r => r.quality.has_security_concerns
  if hasCrit then "CRITICAL"
  else if attackCritical then "CRITICAL"
  else if concerns then "WARNING"
  else "SAFE"

end Aggregator

/-! ### ReflectionAgent retry state (src/agents/reflection.py, pipeline.py) -/

namespace Reflection

/-- The mutable per-instance state of ReflectionAgent: the retry bound fixed
at construction and the cumulative retry counter. -/
structure ReflState where
  max_retries : Nat
  retry_count : Nat
deriving DecidableEq, Repr

/-- ReflectionAgent.__init__: config.get("max_retries", 3) and a counter
starting at zero. -/
def reflInit (configMaxRetries : Option Nat) : ReflState :=
  { max_retries := configMaxRetries.getD 3, retry_count := 0 }

/-- The part of the quality assessment _make_retry_decision reads. -/
structure QualityIn where
  overall_success : Bool
  confidence : ℚ
deriving DecidableEq, Repr

/-- The failure analysis _make_retry_decision reads. -/
structure FailureIn where
  has_failures : Bool
  failure_types : List String
deriving DecidableEq, Repr

/-- The decision dict returned by _make_retry_decision. -/
structure RetryDecision where
  should_retry : Bool
  next_step : String
deriving DecidableEq, Repr

/-- ReflectionAgent._make_retry_decision together with its effect on
retry_count (the only place the counter is written after construction). -/
def make_retry_decision (q : QualityIn) (f : FailureIn) (st : ReflState) :
    RetryDecision × ReflState :=
  if q.overall_success && q.confidence > mkRat 7 10 then
    ({ should_retry := false, next_step := "aggregator" }, st)
  else if f.has_failures && st.retry_count < st.max_retries then
    if f.failure_types.any (fun t => t == "timeout" || t == "execution_error") then
      ({ should_retry := true, next_step := "executor" },
        { st with retry_count := st.retry_count + 1 })
    else ({ should_retry := false, next_step := "aggregator" }, st)
  else ({ should_retry := false, next_step := "aggregator" }, st)

/-- The reflection inputs of one audit run through SSSEAPipeline.run: the
first reflection pass and, when it decides next_step = executor, a second
pass after re-execution. -/
structure AuditInputs where
  q1 : QualityIn
  f1 : FailureIn
  q2 : QualityIn
  f2 : FailureIn
deriving DecidableEq, Repr

/-- The retry-counter effect of one SSSEAPipeline.run: reflection runs once,
and once more after the single in-audit retry when the first decision chose
the executor. -/
def runAudit (i : AuditInputs) (st : ReflState) : ReflState :=
  let (d1, st1) := make_retry_decision i.q1 i.f1 st
  if d1.next_step == "executor" then (make_retry_decision i.q2 i.f2 st1).2
  else st1

/-- A sequence of audits against the same pipeline object (the same
ReflectionAgent instance, hence the same counter). -/
def runAudits (l : List AuditInputs) (st : ReflState) : ReflState :=
  l.foldl (fun s i => runAudit i s) st

end Reflection

/-! ### Mock attestation issuer (src/attestation/mock_quote.py)

The JSON serializer is embedded at the character level: json.dumps of a
flat dict whose values are all strings, with the default separators and
default ensure_ascii escaping.  RSA-PSS signing is embedded symbolically: a
signature value records the signing key and the exact message bytes, and
verification succeeds exactly when the key matches and the message is
byte-identical (the standard idealization of an EUF-CMA signature scheme).
base64 is a bijection between byte strings and their encodings, embedded as
an abstract wrapper whose decode is the exact inverse of encode. -/

namespace Attest

/-- Opening brace character (spelled by code point). -/
def lbrace : Char := Char.ofNat 123

/-- Closing brace character (spelled by code point). -/
def rbrace : Char := Char.ofNat 125

/-- Four lowercase hex digits with leading zeros, as in a JSON \uXXXX
escape. -/
def hexDigit4 (n : Nat) : List Char :=
  let ds := hexDigits n
  List.replicate (4 - ds.length) '0' ++ ds

/-- json.dumps escaping of one character under the default
ensure_ascii=True. -/
def escChar (c : Char) : List Char :=
  if c = '"' then ['\\', '"']
  else if c = '\\' then ['\\', '\\']
  else if c = Char.ofNat 10 then ['\\', 'n']
  else if c = Char.ofNat 13 then ['\\', 'r']
  else if c = Char.ofNat 9 then ['\\', 't']
  else if c = Char.ofNat 8 then ['\\', 'b']
  else if c = Char.ofNat 12 then ['\\', 'f']
  else if c.toNat < 32 || (127 ≤ c.toNat && c.toNat < 65536) then
    '\\' :: 'u' :: hexDigit4 c.toNat
  else if 65536 ≤ c.toNat then
    let v := c.toNat - 65536
    ('\\' :: 'u' :: hexDigit4 (55296 + v / 1024)) ++ ('\\' :: 'u' :: hexDigit4 (56320 + v % 1024))
  else [c]

/-- json.dumps escaping of a string body. -/
def escStr (s : String) : List Char :=
  s.data.foldr (fun c acc => escChar c ++ acc) []

/-- One serialized key/value pair of a string-valued JSON object. -/
def pairChars (kv : String × String) : List Char :=
  '"' :: (escStr kv.1 ++ ('"' :: ':' :: ' ' :: '"' :: (escStr kv.2 ++ ['"'])))

/-- Join serialized pairs with the default item separator. -/
def joinPairs : List (List Char) → List Char
  | [] => []
  | [x] => x
  | x :: y :: rest => x ++ (',' :: ' ' :: joinPairs (y :: rest))

/-- json.dumps of a flat string-valued dict taken in the given key order. -/
def jsonDumps (kvs : List (String × String)) : List Char :=
  lbrace :: (joinPairs (kvs.map pairChars) ++ [rbrace])

/-- Insert one pair into a key-sorted pair list (code-point order). -/
def insertSorted (kv : String × String) : List (String × String) → List (String × String)
  | [] => [kv]
  | h :: t =>
    if charListLt kv.1.data h.1.data then kv :: h :: t
    else h :: insertSorted kv t

/-- The key order produced by json.dumps(..., sort_keys=True). -/
def sortByKeys (l : List (String × String)) : List (String × String) :=
  l.foldr insertSorted []

/-- OMLAttestationQuote: the five per-quote fields (the timestamp is its
isoformat string). -/
structure OMLAttestationQuote where
  pcr0 : String
  pcr1 : String
  user_data : String
  tee_fingerprint : String
  timestamp : String
deriving DecidableEq, Repr

/-- OMLAttestationQuote.to_dict, in Python dict insertion order. -/
def OMLAttestationQuote.to_dict (q : OMLAttestationQuote) : List (String × String) :=
  [("version", "OML_1.0"),
   ("tee_type", "AWS_NITRO_ENCLAVE"),
   ("pcr0", q.pcr0),
   ("pcr1", q.pcr1),
   ("user_data", q.user_data),
   ("tee_fingerprint", q.tee_fingerprint),
   ("timestamp", q.timestamp)]

/-- base64 transport: an abstract wrapper whose decode is the exact inverse
of encode (stdlib base64 is a bijection onto its range). -/
structure Base64 where
  decoded : List Char
deriving DecidableEq, Repr

/-- base64.b64encode. -/
def b64encode (data : List Char) : Base64 := ⟨data⟩

/-- base64.b64decode. -/
def b64decode (b : Base64) : List Char := b.decoded

/-- The provider's RSA key, identified symbolically. -/
structure MockKey where
  keyId : Nat
deriving DecidableEq, Repr

/-- An RSA-PSS signature value: the signing key and the signed bytes. -/
structure PssSignature where
  signerKeyId : Nat
  message : List Char
deriving DecidableEq, Repr

/-- private_key.sign(msg, PSS, SHA256). -/
def rsaSign (k : MockKey) (msg : List Char) : PssSignature :=
  { signerKeyId := k.keyId, message := msg }

/-- public_key.verify(sig, msg, PSS, SHA256): succeeds exactly when the
signature was made by the matching private key over these exact bytes. -/
def rsaVerify (pubKeyId : Nat) (sig : PssSignature) (msg : List Char) : Bool :=
  sig.signerKeyId == pubKeyId && decide (sig.message = msg)

/-- OMLAttestationQuote.to_base64: base64 of json.dumps(to_dict()) WITHOUT
sort_keys. -/
def OMLAttestationQuote.to_base64 (q : OMLAttestationQuote) : Base64 :=
  b64encode (jsonDumps q.to_dict)

/-- MockAttestationProvider.sign_quote: signs json.dumps(to_dict(),
sort_keys=True). -/
def sign_quote (k : MockKey) (q : OMLAttestationQuote) : PssSignature :=
  rsaSign k (jsonDumps (sortByKeys q.to_dict))

/-- The dict returned by generate_full_attestation. -/
structure FullAttestation where
  quote : Base64
  signature : PssSignature
  public_key : Nat
deriving DecidableEq, Repr

/-- MockAttestationProvider.generate_full_attestation, parametrized by the
quote built from the simulation result (the pcr0 digest plays no role in any
statement below, so the hash computation inside from_simulation_result is
not repeated here: the theorems quantify over every possible quote). -/
def generate_full_attestation (k : MockKey) (q : OMLAttestationQuote) : FullAttestation :=
  { quote := q.to_base64, signature := sign_quote k q, public_key := k.keyId }

/-- MockAttestationProvider.verify_quote: decodes the quote and verifies the
signature over the decoded bytes with the provider's own public key,
returning false when verification throws. -/
def verify_quote (k : MockKey) (quote_b64 : Base64) (sig : PssSignature) : Bool :=
  rsaVerify k.keyId sig (b64decode quote_b64)

end Attest

/-! ### AnvilScreener (src/simulation/anvil_screener.py)

The forked node is embedded as an explicit state: an abstract chain value
(a Nat standing for the full chain state), the stack of snapshots taken via
evm_snapshot, and the set of impersonated senders.  Each awaited RPC step may
fail; the environment SimEnv fixes the outcome of every external interaction
(balance reads as a function of the chain value, the transaction's effect and
receipt, trace availability), so simulate becomes a pure function of the
environment, the request and the node state.  Python exceptions, including
asyncio cancellation, are the SimError values propagated through Except. -/

namespace Screener

/-- The abstract chain state of the node. -/
abbrev Chain := Nat

/-- The externally observable node state. -/
structure EvmState where
  chain : Chain
  snapshots : List Chain
  impersonated : List String
deriving DecidableEq, Repr

/-- evm_snapshot: returns a fresh snapshot id and saves the chain. -/
def snapshot (s : EvmState) : Nat × EvmState :=
  (s.snapshots.length, { s with snapshots := s.snapshots ++ [s.chain] })

/-- evm_revert: restores the chain saved under the id and discards that
snapshot and the ones taken after it. -/
def revert (snapId : Nat) (s : EvmState) : EvmState :=
  match s.snapshots.get? snapId with
  | some c => { chain := c, snapshots := s.snapshots.take snapId, impersonated := s.impersonated }
  | none => s

/-- The exceptions simulate can propagate. -/
inductive SimError where
  | valueError (arg : String)
  | rpcError
  | timeoutError
  | cancelled
deriving DecidableEq, Repr

/-- One receipt log dict as read by _parse_events. -/
structure ReceiptLog where
  address : String
  topic0 : String
  topic1 : String
  topic2 : String
  topic3 : String
  data : String
  logIndex : Nat
deriving DecidableEq, Repr

/-- The transaction receipt fields the code reads. -/
structure Receipt where
  status : Nat
  gasUsed : Nat
  logs : List ReceiptLog
deriving DecidableEq, Repr

/-- One structLogs entry of debug_traceTransaction. -/
structure StructLog where
  depth : Nat
  fromAddr : String
  toAddr : String
  value : String
  input : String
  output : String
  gasCost : Nat
  error : Option String
deriving DecidableEq, Repr

/-- Outcome of eth_send_transaction plus mining: either an exception, or a
mined transaction with the resulting chain state and receipt. -/
inductive SendOutcome where
  | fails (e : SimError)
  | mined (next : Chain) (rc : Receipt)
deriving DecidableEq, Repr

/-- The environment that fixes every external interaction of simulate. -/
structure SimEnv where
  balanceOf : Chain → String → Int
  balRpcBefore : Option SimError
  balRpcAfter : Option SimError
  nonceRpc : Option SimError
  send : Chain → SendOutcome
  receiptWait : Option SimError
  traceResult : Option (List StructLog)

/-- The fields of SimulationRequest that simulate reads. -/
structure SimRequest where
  chain_id : Nat
  tx_from : String
  tx_to : String
  tx_value : String
  tx_data : String
  gas_limit : Nat
deriving DecidableEq, Repr

/-- Overwrite-or-append insertion, the Python dict assignment used to build
the balances dict. -/
def insertBalance (m : List ((String × String) × Int)) (k : String × String) (v : Int) :
    List ((String × String) × Int) :=
  match m with
  | [] => [(k, v)]
  | (k0, v0) :: rest =>
    if k0 == k then (k0, v) :: rest else (k0, v0) :: insertBalance rest k v

/-- AnvilScreener._get_balances over the argument list (tx_from, tx_to,
tx_value — the third argument is the value string, passed as if it were an
address).  Empty strings and the zero address are skipped; any other
non-address argument raises ValueError in Web3.to_checksum_address. -/
def get_balances (env : SimEnv) (c : Chain) (addrs : List String) :
    Except SimError (List ((String × String) × Int)) :=
  addrs.foldlM (fun m a =>
    if a == "" || a == zeroAddress then pure m
    else if !isValidAddress a then Except.error (.valueError a)
    else pure (insertBalance m (a, zeroAddress) (env.balanceOf c a))) []

/-- One AssetChange record.  The source stores the three numeric fields as
decimal strings via str(); since int(str(n)) = n exactly, they are kept as
integers here. -/
structure AssetChange where
  token_address : String
  token_symbol : String
  token_decimals : Nat
  balance_before : Int
  balance_after : Int
  change_amount : Int
deriving DecidableEq, Repr

/-- AnvilScreener._calculate_asset_changes.  The source iterates the union
of the key sets (a Python set, with unspecified order); before and after are
built from the same argument list here, so the key sets coincide and the
iteration follows before's insertion order. -/
def calculate_asset_changes (before after : List ((String × String) × Int)) :
    List AssetChange :=
  before.filterMap (fun kv =>
    let b := kv.2
    let a := ((after.find? (fun kv2 => kv2.1 == kv.1)).map (fun kv2 => kv2.2)).getD 0
    if a - b == 0 then none
    else
      some { token_address := kv.1.2,
             token_symbol := if kv.1.2 == zeroAddress then "ETH" else "UNKNOWN",
             token_decimals := 18,
             balance_before := b,
             balance_after := a,
             change_amount := a - b })

/-- One parsed CallTrace record. -/
structure CallTrace where
  depth : Nat
  from_address : String
  to_address : String
  value : String
  input_data : String
  output_data : String
  gas_used : Nat
  error : Option String
deriving DecidableEq, Repr

/-- AnvilScreener._parse_traces: none (no trace, or a trace fetch that
failed and was swallowed) yields no traces; otherwise each structLogs entry
becomes one CallTrace. -/
def parse_traces (tr : Option (List StructLog)) : List CallTrace :=
  match tr with
  | none => []
  | some logs =>
    logs.map (fun l =>
      { depth := l.depth, from_address := l.fromAddr, to_address := l.toAddr,
        value := l.value, input_data := l.input, output_data := l.output,
        gas_used := l.gasCost, error := l.error })

/-- One parsed EventLog record. -/
structure EventLog where
  address : String
  topics : List String
  data : String
  log_index : Nat
deriving DecidableEq, Repr

/-- AnvilScreener._parse_events. -/
def parse_events (rc : Receipt) : List EventLog :=
  rc.logs.map (fun l =>
    { address := l.address, topics := [l.topic0, l.topic1, l.topic2, l.topic3],
      data := l.data, log_index := l.logIndex })

/-- The SimulationResult fields the claims read (block_number, timestamp and
risk_level are carried unchanged and omitted). -/
structure SimResult where
  chain_id : Nat
  tx_from : String
  tx_to : String
  tx_value : String
  tx_data : String
  success : Bool
  gas_used : Nat
  gas_limit : Nat
  error_message : Option String
  asset_changes : List AssetChange
  call_traces : List CallTrace
  events : List EventLog
  anomalies : List String
deriving DecidableEq, Repr

/-- The ETH-outflow pass of _detect_anomalies: for every ETH asset change
the source evaluates int(request.tx_value), which raises ValueError when the
value string is not a plain decimal integer.  The human-readable amount
formatting inside the message is elided. -/
def ethOutflowLoop (txValue : String) : List AssetChange → Except SimError (List String)
  | [] => .ok []
  | c :: rest =>
    if c.token_symbol == "ETH" then
      match pyParseInt txValue with
      | none => .error (.valueError txValue)
      | some v =>
        match ethOutflowLoop txValue rest with
        | .error e => .error e
        | .ok tail =>
          if c.change_amount < -v then .ok ("检测到异常 ETH 转出" :: tail)
          else .ok tail
    else ethOutflowLoop txValue rest

/-- AnvilScreener._detect_anomalies: failure message (error_message is still
None at this point, so the text always reads Unknown error), ETH outflow
check, and the deep-call-stack check. -/
def detect_anomalies (req : SimRequest) (r : SimResult) : Except SimError (List String) :=
  let a1 : List String :=
    if !r.success then ["交易执行失败: " ++ (r.error_message.getD "Unknown error")] else []
  match ethOutflowLoop req.tx_value r.asset_changes with
  | .error e => .error e
  | .ok outflows =>
    let deep : List String :=
      if !r.call_traces.isEmpty then
        if 20 < (r.call_traces.map (fun t => t.depth)).foldl max 0 then
          ["调用深度过深，可能存在重入风险"]
        else []
      else []
    .ok (a1 ++ outflows ++ deep)

/-- AnvilScreener._execute_transaction: nonce fetch, impersonation, the
try/finally around send and receipt wait (impersonation is always disabled
again), and the swallowed trace fetch. -/
def execTx (env : SimEnv) (req : SimRequest) (s : EvmState) :
    Except SimError (Receipt × Option (List StructLog)) × EvmState :=
  match env.nonceRpc with
  | some e => (.error e, s)
  | none =>
    let s1 := { s with impersonated := req.tx_from :: s.impersonated }
    match env.send s1.chain with
    | .fails e => (.error e, { s1 with impersonated := s1.impersonated.erase req.tx_from })
    | .mined next rc =>
      let s2 := { s1 with chain := next }
      match env.receiptWait with
      | some e => (.error e, { s2 with impersonated := s2.impersonated.erase req.tx_from })
      | none =>
        (.ok (rc, env.traceResult), { s2 with impersonated := s2.impersonated.erase req.tx_from })

/-- The body of AnvilScreener.simulate between the snapshot and the finally
clause.  Each match arm that returns early models the corresponding raised
exception propagating out of the try block. -/
def simulate_body (env : SimEnv) (req : SimRequest) (s : EvmState) :
    Except SimError SimResult × EvmState :=
  match env.balRpcBefore with
  | some e => (.error e, s)
  | none =>
  match get_balances env s.chain [req.tx_from, req.tx_to, req.tx_value] with
  | .error e => (.error e, s)
  | .ok before =>
    match execTx env req s with
    | (.error e, s1) => (.error e, s1)
    | (.ok (rc, tr), s1) =>
      let res : Except SimError SimResult :=
        match env.balRpcAfter with
        | some e => .error e
        | none =>
        match get_balances env s1.chain [req.tx_from, req.tx_to, req.tx_value] with
        | .error e => .error e
        | .ok after =>
          let result0 : SimResult :=
            { chain_id := req.chain_id, tx_from := req.tx_from, tx_to := req.tx_to,
              tx_value := req.tx_value, tx_data := req.tx_data,
              success := rc.status == 1, gas_used := rc.gasUsed,
              gas_limit := req.gas_limit, error_message := none,
              asset_changes := calculate_asset_changes before after,
              call_traces := parse_traces tr, events := parse_events rc,
              anomalies := [] }
          match detect_anomalies req result0 with
          | .error e => .error e
          | .ok an => .ok { result0 with anomalies := an }
      (res, s1)

/-- AnvilScreener.simulate: snapshot, body, and the finally clause reverting
to the snapshot on every exit path.  (The source starts the node first when
it is not yet running; simulate is modelled against the running node.) -/
def simulate (env : SimEnv) (req : SimRequest) (s : EvmState) :
    Except SimError SimResult × EvmState :=
  let sp := snapshot s
  let body := simulate_body env req sp.2
  (body.1, revert sp.1 body.2)

/-- The slice of AnvilToolkit._handle_simulate_tx's ToolkitResult the claims
read: tool-level success/error and the execution block copied from the
simulation result. -/
structure ToolkitSimView where
  success : Bool
  error : Option String
  execution_success : Option Bool
  execution_error : Option (Option String)
deriving DecidableEq, Repr

/-- Rendering of a propagated exception by str(e). -/
def errString : SimError → String
  | .valueError a => "ValueError: " ++ a
  | .rpcError => "RPC error"
  | .timeoutError => "timeout"
  | .cancelled => "cancelled"

/-- AnvilToolkit._handle_simulate_tx: a normal simulate return becomes a
successful ToolkitResult embedding the simulation outcome; a raised
exception becomes a failed ToolkitResult carrying str(e). -/
def handle_simulate_tx (env : SimEnv) (req : SimRequest) (s : EvmState) : ToolkitSimView :=
  match (simulate env req s).1 with
  | .ok r =>
    { success := true, error := none,
      execution_success := some r.success, execution_error := some r.error_message }
  | .error e =>
    { success := false, error := some (errString e),
      execution_success := none, execution_error := none }

/-- The process-level state of the screener: whether a child process exists
and is alive, and whether the Web3 connection and process info are set. -/
structure ScreenerProcState where
  processAlive : Option Bool
  hasW3 : Bool
  hasInfo : Bool
deriving DecidableEq, Repr

/-- The environment of a start attempt: which ports are busy and the
outcomes of the readiness polls inside the startup deadline. -/
structure StartEnv where
  portBusy : Nat → Bool
  pollOk : Nat → Bool
  pollBudget : Nat

/-- The exceptions start can raise. -/
inductive StartError where
  | portExhausted
  | startupTimeout
deriving DecidableEq, Repr

/-- find_free_port: the first of 100 candidate ports from the base that is
not busy, or an OSError. -/
def find_free_port (busy : Nat → Bool) (base : Nat) : Option Nat :=
  ((List.range 100).find? (fun i => !busy (base + i))).map (fun i => base + i)

/-- AnvilScreener._wait_for_ready: some poll inside the deadline gets an
HTTP 200 answer to eth_blockNumber, else RuntimeError. -/
def wait_for_ready (env : StartEnv) : Bool :=
  (List.range env.pollBudget).any env.pollOk

/-- AnvilScreener.is_running. -/
def is_running (s : ScreenerProcState) : Bool :=
  s.processAlive == some true

/-- AnvilScreener.start: early return when already running; find a port;
spawn the child (the process becomes alive); then _wait_for_ready, whose
RuntimeError propagates out of start without any kill of the child. -/
def start (env : StartEnv) (basePort : Nat) (s : ScreenerProcState) :
    Except StartError Unit × ScreenerProcState :=
  if is_running s then (.ok (), s)
  else
    match find_free_port env.portBusy basePort with
    | none => (.error .portExhausted, s)
    | some _p =>
      let s1 : ScreenerProcState :=
        { processAlive := some true, hasW3 := s.hasW3, hasInfo := s.hasInfo }
      if wait_for_ready env then
        (.ok (), { s1 with hasW3 := true, hasInfo := true })
      else
        (.error .startupTimeout, s1)

/-! Concrete scenarios used by the closed evaluation theorems below. -/

/-- A valid 20-byte sender address. -/
def addrA : String := "0xaaaaaaaaaaaaaaaaaaaaaaaaaaaaaaaaaaaaaaaa"

/-- A valid 20-byte recipient address. -/
def addrB : String := "0xbbbbbbbbbbbbbbbbbbbbbbbbbbbbbbbbbbbbbbbb"

/-- An environment in which the transaction mines with receipt status 0 and
the sender's native balance drops by 10 wei (gas), all RPC steps
succeeding. -/
def envStatusZeroDelta : SimEnv :=
  { balanceOf := fun c a => if a == addrA then (if c == 0 then 100 else 90) else 50,
    balRpcBefore := none, balRpcAfter := none, nonceRpc := none,
    send := fun _ => .mined 1 { status := 0, gasUsed := 21000, logs := [] },
    receiptWait := none, traceResult := none }

/-- The same status-0 environment with balances unchanged by the
transaction. -/
def envStatusZeroNoDelta : SimEnv :=
  { balanceOf := fun _ _ => 100,
    balRpcBefore := none, balRpcAfter := none, nonceRpc := none,
    send := fun _ => .mined 1 { status := 0, gasUsed := 21000, logs := [] },
    receiptWait := none, traceResult := none }

/-- A request whose value string is empty, the only shape (besides the
literal zero address) that _get_balances does not reject. -/
def reqEmptyValue : SimRequest :=
  { chain_id := 31337, tx_from := addrA, tx_to := addrB, tx_value := "",
    tx_data := "0x", gas_limit := 30000000 }

/-- A request with the canonical decimal value string used by the repo's own
tests. -/
def reqDecimalValue : SimRequest :=
  { chain_id := 31337, tx_from := addrA, tx_to := addrB,
    tx_value := "1000000000000000000", tx_data := "0x", gas_limit := 30000000 }

/-- A fresh running node. -/
def nodeStart : EvmState := { chain := 0, snapshots := [], impersonated := [] }

/-- A start environment whose readiness polls never answer. -/
def envNeverReady : StartEnv :=
  { portBusy := fun _ => false, pollOk := fun _ => false, pollBudget := 100 }

/-- A second never-ready start environment with a short deadline, used to
instantiate the amended start theorem. -/
def envNeverReadyShort : StartEnv :=
  { portBusy := fun _ => false, pollOk := fun _ => false, pollBudget := 3 }

/-- A stopped screener. -/
def screenerStopped : ScreenerProcState :=
  { processAlive := none, hasW3 := false, hasInfo := false }

end Screener

/-!
## Theorems

Each claim of the specification is settled by exactly one theorem below;
helper lemmas carry no claim by themselves.
-/

/-- C5: the source's _detect_reentrancy fires only when an address appears at
MORE than 3 distinct depths, so a trace whose target appears at depths 1, 5
and 9 (exactly 3 distinct depths) produces no reentrancy finding, in trace
analysis or in attack detection, contradicting the claim and the code's own
inline comment; the same trace extended with a fourth distinct depth does
fire, with confidence 0.7. -/
theorem C5_reentrancy_threshold_evaluation :
    Forensics.detect_reentrancy
      [⟨"0xdeadbeefdeadbeefdeadbeefdeadbeefdeadbeef", 1⟩,
       ⟨"0xdeadbeefdeadbeefdeadbeefdeadbeefdeadbeef", 5⟩,
       ⟨"0xdeadbeefdeadbeefdeadbeefdeadbeefdeadbeef", 9⟩] = none ∧
    Forensics.check_reentrancy_attack
      [⟨"0xdeadbeefdeadbeefdeadbeefdeadbeefdeadbeef", 1⟩,
       ⟨"0xdeadbeefdeadbeefdeadbeefdeadbeefdeadbeef", 5⟩,
       ⟨"0xdeadbeefdeadbeefdeadbeefdeadbeefdeadbeef", 9⟩] = none ∧
    Forensics.check_reentrancy_attack
      [⟨"0xdeadbeefdeadbeefdeadbeefdeadbeefdeadbeef", 1⟩,
       ⟨"0xdeadbeefdeadbeefdeadbeefdeadbeefdeadbeef", 5⟩,
       ⟨"0xdeadbeefdeadbeefdeadbeefdeadbeefdeadbeef", 9⟩,
       ⟨"0xdeadbeefdeadbeefdeadbeefdeadbeefdeadbeef", 12⟩] =
      some (mkRat 7 10, ("0xdeadbeef", [1, 5, 9, 12])) := by
  decide

set_option maxRecDepth 8192 in
/-- C7: for a swap intent the source computes max(complexity, "medium") with
Python string max, which is lexicographic, so short-calldata swaps stay
"simple" (no medium floor) and long-calldata swaps are downgraded from
"complex" to "medium"; a non-swap intent with the same long calldata keeps
"complex". -/
theorem C7_complexity_floor_evaluation :
    Perception.classify_complexity "swap" "0x" = "simple" ∧
    Perception.classify_complexity "swap" (String.mk (List.replicate 1001 'a')) = "medium" ∧
    Perception.classify_complexity "transfer" (String.mk (List.replicate 1001 'a')) = "complex" := by
  decide

/-- C6 counterexample: a float transaction value 1.5 normalizes to the hex
string produced by Python hex(int(1.5e18)), not to the decimal string the
claim states. -/
theorem C6_counterexample_float_value :
    Perception.normalize_value (.pfloat (mkRat 3 2)) = "0x14d1120d7b160000" ∧
    Perception.normalize_value (.pfloat (mkRat 3 2)) ≠ "1500000000000000000" := by
  have hpos : (0 : ℚ) ≤ mkRat 3 2 * (10 ^ 18 : ℚ) := by
    rw [Rat.mkRat_eq_div]; norm_num
  have hfl : (⌊mkRat 3 2 * (10 ^ 18 : ℚ)⌋ : Int) = 1500000000000000000 := by
    rw [Rat.mkRat_eq_div]; norm_num
  have hval : Perception.normalize_value (.pfloat (mkRat 3 2)) = pyHex 1500000000000000000 := by
    simp [Perception.normalize_value, truncRat, hpos, hfl]
  rw [hval]
  constructor
  · decide
  · decide

/-- C4 counterexample: with no reflection security concerns and an
attack-detector risk score of 0.5 the aggregator leaves the final level at
SAFE, although the attack detector's own level for 0.5 is WARNING; the
claimed max-fusion and the at-least-WARNING threshold both fail. -/
theorem C4_counterexample_mid_score_safe :
    (Aggregator.generate_security_assessment none (some (mkRat 5 10))).risk_level = "SAFE" ∧
    Forensics.get_risk_level (mkRat 5 10) = "WARNING" := by
  decide

/-- C9 counterexample: when no readiness poll answers before the deadline,
start raises the startup-timeout error but leaves the spawned child process
alive, contradicting the claimed kill. -/
theorem C9_counterexample_timeout_leaves_child :
    (Screener.start Screener.envNeverReady 8545 Screener.screenerStopped).1 =
      .error .startupTimeout ∧
    (Screener.start Screener.envNeverReady 8545 Screener.screenerStopped).2.processAlive =
      some true := by
  exact ⟨rfl, by decide⟩

/-- C1: for every quote the issuer can build (hence for every verdict passed
to generate_full_attestation), verify_quote rejects the produced
quote/signature pair: sign_quote signs the sort-keyed JSON serialization
while to_base64 ships the insertion-ordered one, and the two byte strings
always differ (the first serialized key is pcr0 in one and version in the
other), so the claimed verification success never holds. -/
theorem C1_attestation_verify_always_fails (k : Attest.MockKey) (q : Attest.OMLAttestationQuote) :
    Attest.verify_quote k (Attest.generate_full_attestation k q).quote
      (Attest.generate_full_attestation k q).signature = false := by
  have hs : List.take 3 (Attest.jsonDumps (Attest.sortByKeys q.to_dict)) =
      [Attest.lbrace, '"', 'p'] := rfl
  have hp : List.take 3 (Attest.jsonDumps q.to_dict) = [Attest.lbrace, '"', 'v'] := rfl
  have hne : Attest.jsonDumps (Attest.sortByKeys q.to_dict) ≠ Attest.jsonDumps q.to_dict := by
    intro h
    have h3 := congrArg (List.take 3) h
    rw [hs, hp] at h3
    exact absurd h3 (by decide)
  simp [Attest.verify_quote, Attest.generate_full_attestation,
        Attest.OMLAttestationQuote.to_base64, Attest.sign_quote, Attest.rsaSign,
        Attest.rsaVerify, Attest.b64encode, Attest.b64decode, hne]

/-- C8: evaluation of simulate on status-0 (reverted) candidate
transactions.  With an empty value string (one of the only two value shapes
the pre-balance step does not reject) and a gas-induced ETH delta, the
anomaly pass raises ValueError on int(tx_value) and the toolkit reports a
tool-level error, contradicting the claim; with no balance delta the claimed
behaviour holds (success=false recorded, failure message in anomalies,
tool-level success); and with the repo's own canonical decimal value string
simulate raises already in the pre-balance step, so no reverted candidate
with such a value ever reaches the claimed success=false path. -/
theorem C8_status_zero_evaluation :
    (Screener.simulate Screener.envStatusZeroDelta Screener.reqEmptyValue Screener.nodeStart).1 =
      .error (.valueError "") ∧
    Screener.handle_simulate_tx Screener.envStatusZeroDelta Screener.reqEmptyValue
        Screener.nodeStart =
      { success := false, error := some "ValueError: ",
        execution_success := none, execution_error := none } ∧
    ((Screener.simulate Screener.envStatusZeroNoDelta Screener.reqEmptyValue
        Screener.nodeStart).1.toOption.map
          (fun r => (r.success, r.error_message, r.anomalies))) =
      some (false, none, ["交易执行失败: Unknown error"]) ∧
    Screener.handle_simulate_tx Screener.envStatusZeroNoDelta Screener.reqEmptyValue
        Screener.nodeStart =
      { success := true, error := none,
        execution_success := some false, execution_error := some none } ∧
    (Screener.simulate Screener.envStatusZeroNoDelta Screener.reqDecimalValue
        Screener.nodeStart).1 =
      .error (.valueError "1000000000000000000") := by
  exact ⟨rfl, by decide, by decide, by decide, rfl⟩

/-- Helper: taking the left length of an append returns the left part. -/
theorem listTakeAppend {α : Type} (l m : List α) : (l ++ m).take l.length = l := by
  induction l with
  | nil => rfl
  | cons x t ih => simp [ih]

/-- Helper: indexing an append at the left length returns the appended
element. -/
theorem listGetAppendLength {α : Type} (l : List α) (a : α) :
    (l ++ [a]).get? l.length = some a := by
  induction l with
  | nil => rfl
  | cons x t ih => simp [ih]

/-- Helper: _execute_transaction never touches the snapshot stack and always
restores the impersonation set (the inner finally). -/
theorem execTx_state (env : Screener.SimEnv) (req : Screener.SimRequest)
    (s : Screener.EvmState) :
    (Screener.execTx env req s).2.snapshots = s.snapshots ∧
    (Screener.execTx env req s).2.impersonated = s.impersonated := by
  rcases hn : env.nonceRpc with _ | e
  · rcases hs : env.send s.chain with e | ⟨next, rc⟩
    · simp [Screener.execTx, hn, hs, List.erase_cons_head]
    · rcases hr : env.receiptWait with _ | e
      · simp [Screener.execTx, hn, hs, hr, List.erase_cons_head]
      · simp [Screener.execTx, hn, hs, hr, List.erase_cons_head]
  · simp [Screener.execTx, hn]

/-- Helper: the body of simulate never touches the snapshot stack and leaves
the impersonation set as it found it, on every exit path. -/
theorem simulate_body_state (env : Screener.SimEnv) (req : Screener.SimRequest)
    (s : Screener.EvmState) :
    (Screener.simulate_body env req s).2.snapshots = s.snapshots ∧
    (Screener.simulate_body env req s).2.impersonated = s.impersonated := by
  have hex := execTx_state env req s
  rcases hb : env.balRpcBefore with _ | e
  · rcases hg : Screener.get_balances env s.chain [req.tx_from, req.tx_to, req.tx_value]
      with e | before
    · simp [Screener.simulate_body, hb, hg]
    · rcases hx : Screener.execTx env req s with ⟨res, s1⟩
      rw [hx] at hex
      cases res with
      | error e => simp [Screener.simulate_body, hb, hg, hx]; exact hex
      | ok v => simp [Screener.simulate_body, hb, hg, hx]; exact hex
  · simp [Screener.simulate_body, hb]

/-- C2: simulate restores the full node state on every exit path: the
snapshot is taken before any mutation, every mutating step happens inside
the try block, and the finally clause reverts to that snapshot, so for every
environment (including transaction failure, any raised exception and
cancellation) the post-call node state equals the pre-call node state. -/
theorem C2_simulate_restores_state (env : Screener.SimEnv) (req : Screener.SimRequest)
    (s : Screener.EvmState) :
    (Screener.simulate env req s).2 = s := by
  have h := simulate_body_state env req { s with snapshots := s.snapshots ++ [s.chain] }
  unfold Screener.simulate Screener.snapshot Screener.revert
  dsimp only
  rw [h.1, h.2, listGetAppendLength, listTakeAppend]

/-- Helper: folding the risk-score accumulator equals the initial value plus
the sum of the per-attack contributions. -/
theorem foldl_add_contribution (l : List Forensics.AttackItem) (init : ℚ) :
    l.foldl (fun acc a => acc + Forensics.attackContribution a) init =
      init + (l.map Forensics.attackContribution).sum := by
  induction l generalizing init with
  | nil => simp
  | cons a t ih => simp [ih, add_assoc]

/-- Helper: on the closed severity set of the data model the source's
contribution agrees with the claim's weight table. -/
theorem attackContribution_eq_claim (a : Forensics.AttackItem)
    (h : a.severity ∈ (["critical", "high", "warning", "low"] : List String)) :
    Forensics.attackContribution a =
      Forensics.claimSeverityWeight a.severity * a.confidence := by
  obtain ⟨sev, conf⟩ := a
  simp only [List.mem_cons, List.not_mem_nil, or_false] at h
  rcases h with h | h | h | h <;> subst h <;> rfl

/-- C3: for every finding list over the data model's closed severity set the
computed risk score equals the sum of severity-weight times confidence with
weights critical 0.4, high 0.3, warning 0.15, low 0.1, capped at 1.0; and
the derived level is CRITICAL for scores at least 0.7, WARNING for scores in
[0.4, 0.7), and SAFE below 0.4. -/
theorem C3_risk_score_and_level :
    (∀ l : List Forensics.AttackItem,
        (∀ a ∈ l, a.severity ∈ (["critical", "high", "warning", "low"] : List String)) →
        Forensics.calculate_risk_score l =
          min ((l.map (fun a => Forensics.claimSeverityWeight a.severity * a.confidence)).sum) 1) ∧
    (∀ q : ℚ,
        (mkRat 7 10 ≤ q → Forensics.get_risk_level q = "CRITICAL") ∧
        (mkRat 4 10 ≤ q → q < mkRat 7 10 → Forensics.get_risk_level q = "WARNING") ∧
        (q < mkRat 4 10 → Forensics.get_risk_level q = "SAFE")) := by
  constructor
  · intro l h
    have hmap : l.map Forensics.attackContribution =
        l.map (fun a => Forensics.claimSeverityWeight a.severity * a.confidence) := by
      induction l with
      | nil => rfl
      | cons a t ih =>
        simp only [List.map_cons]
        refine congrArg₂ _ (attackContribution_eq_claim a (h a (by simp))) ?_
        exact ih (fun x hx => h x (by simp [hx]))
    cases l with
    | nil => simp [Forensics.calculate_risk_score]
    | cons a t =>
      show min (List.foldl (fun acc a => acc + Forensics.attackContribution a) 0 (a :: t)) 1 = _
      rw [foldl_add_contribution, zero_add, hmap]
  · intro q
    refine ⟨fun h => ?_, fun h1 h2 => ?_, fun h => ?_⟩
    · simp [Forensics.get_risk_level, ge_iff_le, h]
    · have h7 : ¬ (mkRat 7 10 ≤ q) := not_le.mpr h2
      simp [Forensics.get_risk_level, ge_iff_le, h7, h1]
    · have h4 : ¬ (mkRat 4 10 ≤ q) := not_le.mpr h
      have h7 : ¬ (mkRat 7 10 ≤ q) := not_le.mpr (lt_trans h (by decide))
      simp [Forensics.get_risk_level, ge_iff_le, h7, h4]

/-- Witness for C3: the risk-score equation applied to a single critical
finding of confidence 1, and the level mapping applied to a score of 0.8. -/
theorem C3_risk_score_and_level_witness :
    Forensics.calculate_risk_score [⟨"critical", 1⟩] =
      min ((([⟨"critical", 1⟩] : List Forensics.AttackItem).map
        (fun a => Forensics.claimSeverityWeight a.severity * a.confidence)).sum) 1 ∧
    Forensics.get_risk_level (mkRat 8 10) = "CRITICAL" :=
  ⟨C3_risk_score_and_level.1 _ (by decide),
   (C3_risk_score_and_level.2 (mkRat 8 10)).1 (by decide)⟩

/-- C4 (amended): the final risk level the aggregator produces is CRITICAL
when reflection reports a critical anomaly, otherwise CRITICAL when the
attack risk score is nonzero and strictly greater than 0.7, otherwise
WARNING when reflection reports security concerns, otherwise SAFE; the
attack detector's own level is never consulted, so a score in [0.4, 0.7]
alone leaves the level SAFE. -/
theorem C4_amended_level_characterization (reflection : Option Aggregator.ReflectionView)
    (ar : Option ℚ) :
    (Aggregator.generate_security_assessment reflection ar).risk_level =
      Aggregator.aggregatedLevel reflection ar := by
  cases reflection with
  | none =>
    cases ar with
    | none => rfl
    | some x =>
      by_cases hx : x = 0
      · subst hx
        simp [Aggregator.generate_security_assessment, Aggregator.aggregatedLevel]
      · by_cases hgt : x > mkRat 7 10
        · simp [Aggregator.generate_security_assessment, Aggregator.aggregatedLevel, hx, hgt]
        · simp [Aggregator.generate_security_assessment, Aggregator.aggregatedLevel, hx, hgt]
  | some r =>
    cases hc : r.quality.has_security_concerns with
    | false =>
      cases he : (r.anomalies.filter (fun an => an.severity == "critical")).isEmpty with
      | false =>
        cases ar with
        | none =>
          simp [Aggregator.generate_security_assessment, Aggregator.aggregatedLevel, hc, he]
        | some x =>
          by_cases hx : x = 0
          · subst hx
            simp [Aggregator.generate_security_assessment, Aggregator.aggregatedLevel, hc, he]
          · by_cases hgt : x > mkRat 7 10 <;>
              simp [Aggregator.generate_security_assessment, Aggregator.aggregatedLevel,
                hc, he, hx, hgt]
      | true =>
        cases ar with
        | none =>
          simp [Aggregator.generate_security_assessment, Aggregator.aggregatedLevel, hc, he]
        | some x =>
          by_cases hx : x = 0
          · subst hx
            simp [Aggregator.generate_security_assessment, Aggregator.aggregatedLevel, hc, he]
          · by_cases hgt : x > mkRat 7 10 <;>
              simp [Aggregator.generate_security_assessment, Aggregator.aggregatedLevel,
                hc, he, hx, hgt]
    | true =>
      cases he : (r.anomalies.filter (fun an => an.severity == "critical")).isEmpty with
      | false =>
        cases ar with
        | none =>
          simp [Aggregator.generate_security_assessment, Aggregator.aggregatedLevel, hc, he]
        | some x =>
          by_cases hx : x = 0
          · subst hx
            simp [Aggregator.generate_security_assessment, Aggregator.aggregatedLevel, hc, he]
          · by_cases hgt : x > mkRat 7 10 <;>
              simp [Aggregator.generate_security_assessment, Aggregator.aggregatedLevel,
                hc, he, hx, hgt]
      | true =>
        cases ar with
        | none =>
          simp [Aggregator.generate_security_assessment, Aggregator.aggregatedLevel, hc, he]
        | some x =>
          by_cases hx : x = 0
          · subst hx
            simp [Aggregator.generate_security_assessment, Aggregator.aggregatedLevel, hc, he]
          · by_cases hgt : x > mkRat 7 10 <;>
              simp [Aggregator.generate_security_assessment, Aggregator.aggregatedLevel,
                hc, he, hx, hgt]

/-- C6 (amended): every value accepted by Perception normalizes to a hex
string, not a decimal string: integers via hex(), floats interpreted as
whole units, scaled by 1e18 and truncated before hex(), decimal strings
parsed and hex-encoded, and 0x-prefixed strings passed through unchanged; in
particular 1.5 normalizes to "0x14d1120d7b160000". -/
theorem C6_amended_hex_normalization :
    (∀ n : Int, Perception.normalize_value (.pint n) = pyHex n) ∧
    Perception.normalize_value (.pfloat (mkRat 3 2)) = "0x14d1120d7b160000" ∧
    Perception.normalize_value (.pstr "1500000000000000000") = "0x14d1120d7b160000" ∧
    (∀ s : String, pyStartsWith s "0x" = true → Perception.normalize_value (.pstr s) = s) := by
  refine ⟨fun n => rfl, ?_, by decide, fun s h => ?_⟩
  · have hpos : (0 : ℚ) ≤ mkRat 3 2 * (10 ^ 18 : ℚ) := by
      rw [Rat.mkRat_eq_div]; norm_num
    have hfl : (⌊mkRat 3 2 * (10 ^ 18 : ℚ)⌋ : Int) = 1500000000000000000 := by
      rw [Rat.mkRat_eq_div]; norm_num
    have hval : Perception.normalize_value (.pfloat (mkRat 3 2)) =
        pyHex 1500000000000000000 := by
      simp [Perception.normalize_value, truncRat, hpos, hfl]
    rw [hval]; decide
  · simp [Perception.normalize_value, h]

/-- Witness for C6 (amended): a 0x-prefixed string is returned unchanged. -/
theorem C6_amended_hex_normalization_witness :
    Perception.normalize_value (.pstr "0xabc") = "0xabc" :=
  C6_amended_hex_normalization.2.2.2 "0xabc" (by decide)

/-- C9 (amended): whenever a free port is found, the node is spawned and no
readiness poll succeeds before the deadline, start raises the startup
timeout error but does not kill the spawned child: the child process is
still alive in the post-call state and is only reaped by a later stop or
pipeline cleanup. -/
theorem C9_amended_timeout_no_kill (env : Screener.StartEnv) (basePort : Nat)
    (s : Screener.ScreenerProcState)
    (hrun : Screener.is_running s = false)
    (hport : (Screener.find_free_port env.portBusy basePort).isSome = true)
    (htime : Screener.wait_for_ready env = false) :
    (Screener.start env basePort s).1 = .error .startupTimeout ∧
    (Screener.start env basePort s).2.processAlive = some true := by
  rcases hp : Screener.find_free_port env.portBusy basePort with _ | p
  · rw [hp] at hport; simp at hport
  · simp [Screener.start, hrun, hp, htime]

/-- Witness for C9 (amended): a concrete never-ready environment with a
three-poll deadline. -/
theorem C9_amended_timeout_no_kill_witness :
    (Screener.start Screener.envNeverReadyShort 9000 Screener.screenerStopped).1 =
      .error .startupTimeout ∧
    (Screener.start Screener.envNeverReadyShort 9000 Screener.screenerStopped).2.processAlive =
      some true :=
  C9_amended_timeout_no_kill _ _ _ (by decide) (by decide) (by decide)

/-- Helper: one retry decision never decreases the counter and never changes
the bound. -/
theorem make_retry_decision_step (q : Reflection.QualityIn) (f : Reflection.FailureIn)
    (st : Reflection.ReflState) :
    st.retry_count ≤ (Reflection.make_retry_decision q f st).2.retry_count ∧
    (Reflection.make_retry_decision q f st).2.max_retries = st.max_retries := by
  unfold Reflection.make_retry_decision
  split_ifs <;> simp [Nat.le_succ]

/-- Helper: a decided retry implies the guard held and the counter was
incremented by exactly one. -/
theorem make_retry_decision_guard (q : Reflection.QualityIn) (f : Reflection.FailureIn)
    (st : Reflection.ReflState)
    (h : (Reflection.make_retry_decision q f st).1.should_retry = true) :
    st.retry_count < st.max_retries ∧
    (Reflection.make_retry_decision q f st).2.retry_count = st.retry_count + 1 := by
  rcases hq : q.overall_success && decide (q.confidence > mkRat 7 10) with _ | _
  · rcases hf : f.has_failures && decide (st.retry_count < st.max_retries) with _ | _
    · simp [Reflection.make_retry_decision, hq, hf] at h
    · rcases ha : f.failure_types.any (fun t => t == "timeout" || t == "execution_error")
        with _ | _
      · simp [Reflection.make_retry_decision, hq, hf, ha] at h
      · have hlt : st.retry_count < st.max_retries := by
          have := hf
          simp only [Bool.and_eq_true, decide_eq_true_eq] at this
          exact this.2
        refine ⟨hlt, ?_⟩
        simp [Reflection.make_retry_decision, hq, hf, ha]
  · simp [Reflection.make_retry_decision, hq] at h

/-- Helper: a saturated counter forces the no-retry decision and leaves the
state untouched. -/
theorem make_retry_decision_saturated (q : Reflection.QualityIn) (f : Reflection.FailureIn)
    (st : Reflection.ReflState) (h : st.max_retries ≤ st.retry_count) :
    Reflection.make_retry_decision q f st =
      ({ should_retry := false, next_step := "aggregator" }, st) := by
  unfold Reflection.make_retry_decision
  split_ifs with h1 h2 h3
  · rfl
  · simp only [Bool.and_eq_true, decide_eq_true_eq] at h2
    omega
  · simp only [Bool.and_eq_true, decide_eq_true_eq] at h2
    omega
  · rfl

/-- Helper: one audit never decreases the counter and never changes the
bound. -/
theorem runAudit_step (i : Reflection.AuditInputs) (st : Reflection.ReflState) :
    st.retry_count ≤ (Reflection.runAudit i st).retry_count ∧
    (Reflection.runAudit i st).max_retries = st.max_retries := by
  unfold Reflection.runAudit
  have h1 := make_retry_decision_step i.q1 i.f1 st
  rcases hd : Reflection.make_retry_decision i.q1 i.f1 st with ⟨d1, st1⟩
  rw [hd] at h1
  have h2 := make_retry_decision_step i.q2 i.f2 st1
  by_cases hn : (d1.next_step == "executor") = true
  · simp only [hn, if_true]
    exact ⟨le_trans h1.1 h2.1, h2.2.trans h1.2⟩
  · simp only [Bool.not_eq_true] at hn
    simp only [hn, Bool.false_eq_true, if_false]
    exact h1

/-- Helper: a saturated counter makes a whole audit a no-op on the state. -/
theorem runAudit_saturated (i : Reflection.AuditInputs) (st : Reflection.ReflState)
    (h : st.max_retries ≤ st.retry_count) :
    Reflection.runAudit i st = st := by
  unfold Reflection.runAudit
  rw [make_retry_decision_saturated i.q1 i.f1 st h]
  simp [make_retry_decision_saturated i.q2 i.f2 st h]

/-- Helper: across any audit sequence the counter is non-decreasing and the
bound is unchanged. -/
theorem runAudits_mono (l : List Reflection.AuditInputs) (st : Reflection.ReflState) :
    st.retry_count ≤ (Reflection.runAudits l st).retry_count ∧
    (Reflection.runAudits l st).max_retries = st.max_retries := by
  induction l generalizing st with
  | nil => exact ⟨le_refl _, rfl⟩
  | cons i t ih =>
    have hstep := runAudit_step i st
    have hrest := ih (Reflection.runAudit i st)
    exact ⟨le_trans hstep.1 hrest.1, hrest.2.trans hstep.2⟩

/-- Helper: once saturated, every further audit sequence leaves the state
untouched. -/
theorem runAudits_saturated (l : List Reflection.AuditInputs) (st : Reflection.ReflState)
    (h : st.max_retries ≤ st.retry_count) :
    Reflection.runAudits l st = st := by
  induction l with
  | nil => rfl
  | cons i t ih =>
    show Reflection.runAudits t (Reflection.runAudit i st) = st
    rw [runAudit_saturated i st h, ih]

/-- C10: the reflection retry counter starts at zero at construction; each
retry decision can only keep or increment it, never changes the bound, and
increments exactly when a retry is decided, which requires the counter to be
below max_retries; across every audit sequence run through the same pipeline
object the counter is monotonically non-decreasing; and once the counter has
reached max_retries, the next decision is always no-retry (so no subsequent
audit is retried, even on its first pass) and any further audit sequence
leaves the state unchanged. -/
theorem C10_retry_counter_behaviour :
    (∀ m : Option Nat, (Reflection.reflInit m).retry_count = 0) ∧
    (∀ q f st, st.retry_count ≤ (Reflection.make_retry_decision q f st).2.retry_count ∧
        (Reflection.make_retry_decision q f st).2.max_retries = st.max_retries) ∧
    (∀ q f st, (Reflection.make_retry_decision q f st).1.should_retry = true →
        st.retry_count < st.max_retries ∧
        (Reflection.make_retry_decision q f st).2.retry_count = st.retry_count + 1) ∧
    (∀ q f st, st.max_retries ≤ st.retry_count →
        Reflection.make_retry_decision q f st =
          ({ should_retry := false, next_step := "aggregator" }, st)) ∧
    (∀ l st, st.retry_count ≤ (Reflection.runAudits l st).retry_count) ∧
    (∀ l st, st.max_retries ≤ st.retry_count → Reflection.runAudits l st = st) :=
  ⟨fun _ => rfl, make_retry_decision_step, make_retry_decision_guard,
   make_retry_decision_saturated, fun l st => (runAudits_mono l st).1, runAudits_saturated⟩

/-- Witness for C10: a retryable failure below the bound increments the
counter to 1, and a saturated counter (2 of max 2) absorbs a further audit
without change. -/
theorem C10_retry_counter_behaviour_witness :
    (Reflection.make_retry_decision ⟨false, 0⟩ ⟨true, ["timeout"]⟩ ⟨2, 0⟩).2.retry_count = 0 + 1 ∧
    Reflection.runAudits
      [⟨⟨false, 0⟩, ⟨true, ["timeout"]⟩, ⟨false, 0⟩, ⟨true, ["timeout"]⟩⟩] ⟨2, 2⟩ = ⟨2, 2⟩ :=
  ⟨(C10_retry_counter_behaviour.2.2.1 ⟨false, 0⟩ ⟨true, ["timeout"]⟩ ⟨2, 0⟩ (by decide)).2,
   C10_retry_counter_behaviour.2.2.2.2.2 _ ⟨2, 2⟩ (by decide)⟩

end SSSEA
